import Mathlib

/-!
Shallow embedding of `source/lib/dng_sdk/dng_sdk.py` from the gopro/gpr
repository: a build-target descriptor generator.  The script builds a fixed
`gyp_build_object` (one target: the `dng_sdk` static library with its source
catalog and baseline defines), parses a `--modules` option restricted to the
choices `gpr_encoding`, `gpr_decoding`, `all` (default `all`), and appends two
feature defines (`ENABLE_GPR_ENCODING`, `ENABLE_GPR_DECODING`) to the target's
define list depending on the selected modules.
-/

/-- The single gyp target dictionary of `gyp_build_object["targets"][0]`,
with its fields. -/
structure BuildDescriptor where
  target_name : String
  target_type : String
  include_dirs : List String
  defines : List String
  includes : List String
  sources : List String
deriving DecidableEq, Repr

/-- The `"sources"` list of the `dng_sdk` target (lines 28-171 of the
script), in source order. -/
def dng_sdk_sources : List String := [
"./dng_validate.cpp",
"./dng_1d_function.cpp",
"./dng_1d_function.h",
"./dng_1d_table.cpp",
"./dng_1d_table.h",
"./dng_abort_sniffer.cpp",
"./dng_abort_sniffer.h",
"./dng_area_task.cpp",
"./dng_area_task.h",
"./dng_assertions.h",
"./dng_auto_ptr.h",
"./dng_bad_pixels.cpp",
"./dng_bad_pixels.h",
"./dng_bottlenecks.cpp",
"./dng_bottlenecks.h",
"./dng_camera_profile.cpp",
"./dng_camera_profile.h",
"./dng_classes.h",
"./dng_color_space.cpp",
"./dng_color_space.h",
"./dng_color_spec.cpp",
"./dng_color_spec.h",
"./dng_date_time.cpp",
"./dng_date_time.h",
"./dng_errors.h",
"./dng_exceptions.cpp",
"./dng_exceptions.h",
"./dng_exif.cpp",
"./dng_exif.h",
"./dng_fast_module.h",
"./dng_file_stream.cpp",
"./dng_file_stream.h",
"./dng_filter_task.cpp",
"./dng_filter_task.h",
"./dng_fingerprint.cpp",
"./dng_fingerprint.h",
"./dng_flags.h",
"./dng_gain_map.cpp",
"./dng_gain_map.h",
"./dng_globals.cpp",
"./dng_globals.h",
"./dng_host.cpp",
"./dng_host.h",
"./dng_hue_sat_map.cpp",
"./dng_hue_sat_map.h",
"./dng_ifd.cpp",
"./dng_ifd.h",
"./dng_image.cpp",
"./dng_image.h",
"./dng_image_writer.cpp",
"./dng_image_writer.h",
"./dng_info.cpp",
"./dng_info.h",
"./dng_iptc.cpp",
"./dng_iptc.h",
"./dng_jpeg_image.cpp",
"./dng_jpeg_image.h",
"./dng_lens_correction.cpp",
"./dng_lens_correction.h",
"./dng_linearization_info.cpp",
"./dng_linearization_info.h",
"./dng_lossless_jpeg.cpp",
"./dng_lossless_jpeg.h",
"./dng_matrix.cpp",
"./dng_matrix.h",
"./dng_memory.cpp",
"./dng_memory.h",
"./dng_memory_stream.cpp",
"./dng_memory_stream.h",
"./dng_misc_opcodes.cpp",
"./dng_misc_opcodes.h",
"./dng_mosaic_info.cpp",
"./dng_mosaic_info.h",
"./dng_mutex.cpp",
"./dng_mutex.h",
"./dng_negative.cpp",
"./dng_negative.h",
"./dng_opcode_list.cpp",
"./dng_opcode_list.h",
"./dng_opcodes.cpp",
"./dng_opcodes.h",
"./dng_orientation.cpp",
"./dng_orientation.h",
"./dng_parse_utils.cpp",
"./dng_parse_utils.h",
"./dng_pixel_buffer.cpp",
"./dng_pixel_buffer.h",
"./dng_point.cpp",
"./dng_point.h",
"./dng_preview.cpp",
"./dng_preview.h",
"./dng_pthread.cpp",
"./dng_pthread.h",
"./dng_rational.cpp",
"./dng_rational.h",
"./dng_read_image.cpp",
"./dng_read_image.h",
"./dng_rect.cpp",
"./dng_rect.h",
"./dng_ref_counted_block.cpp",
"./dng_ref_counted_block.h",
"./dng_reference.cpp",
"./dng_reference.h",
"./dng_render.cpp",
"./dng_render.h",
"./dng_resample.cpp",
"./dng_resample.h",
"./dng_sdk_limits.h",
"./dng_shared.cpp",
"./dng_shared.h",
"./dng_simple_image.cpp",
"./dng_simple_image.h",
"./dng_spline.cpp",
"./dng_spline.h",
"./dng_stream.cpp",
"./dng_stream.h",
"./dng_string.cpp",
"./dng_string.h",
"./dng_string_list.cpp",
"./dng_string_list.h",
"./dng_tag_codes.h",
"./dng_tag_types.cpp",
"./dng_tag_types.h",
"./dng_tag_values.h",
"./dng_temperature.cpp",
"./dng_temperature.h",
"./dng_tile_iterator.cpp",
"./dng_tile_iterator.h",
"./dng_tone_curve.cpp",
"./dng_tone_curve.h",
"./dng_types.h",
"./dng_uncopyable.h",
"./dng_utils.cpp",
"./dng_utils.h",
"./dng_xmp.cpp",
"./dng_xmp.h",
"./dng_xmp_sdk.cpp",
"./dng_xmp_sdk.h",
"./dng_xy_coord.cpp",
"./dng_xy_coord.h"
]

/-- The `gyp_build_object` target as constructed at lines 10-174, before the
feature resolver appends the feature defines. -/
def dng_sdk_baseline : BuildDescriptor :=
  { target_name := "dng_sdk"
    target_type := "static_library"
    include_dirs := []
    defines := ["<@(default_defines)", "qDNGXMPFiles=0", "qDNGXMPDocOps=0"]
    includes := ["../xmp_sdk/xmp_sdk.gypi"]
    sources := dng_sdk_sources }

/-- The `choices` list of `parser.add_argument` for `-m`/`--modules`
(line 178). -/
def modulesChoices : List String := ["gpr_encoding", "gpr_decoding", "all"]

/-- Lines 182-185: append `ENABLE_GPR_ENCODING=1` to the target's defines when
the selected modules are `gpr_encoding` or `all`, else append
`ENABLE_GPR_ENCODING=0`. -/
def appendEncodingDefine (modules : String) (d : BuildDescriptor) : BuildDescriptor :=
  if modules == "gpr_encoding" || modules == "all" then
    { d with defines := d.defines ++ ["ENABLE_GPR_ENCODING=1"] }
  else
    { d with defines := d.defines ++ ["ENABLE_GPR_ENCODING=0"] }

/-- Lines 187-190: append `ENABLE_GPR_DECODING=1` to the target's defines when
the selected modules are `gpr_decoding` or `all`, else append
`ENABLE_GPR_DECODING=0`. -/
def appendDecodingDefine (modules : String) (d : BuildDescriptor) : BuildDescriptor :=
  if modules == "gpr_decoding" || modules == "all" then
    { d with defines := d.defines ++ ["ENABLE_GPR_DECODING=1"] }
  else
    { d with defines := d.defines ++ ["ENABLE_GPR_DECODING=0"] }

/-- The feature resolver: both appends of lines 182-190 in program order
(encoding define first, then decoding define). -/
def resolve (modules : String) (d : BuildDescriptor) : BuildDescriptor :=
  appendDecodingDefine modules (appendEncodingDefine modules d)

/-- The final descriptor printed at line 192, as a function of the parsed
`args.modules` value. -/
def gyp_build_for (modules : String) : BuildDescriptor :=
  resolve modules dng_sdk_baseline

/-- Modelled from the spec: the CLI argument-parsing boundary
(`ArgumentParser` at lines 176-180 of the script; the parser itself is the
Python standard library, not repository code).  Per the spec, recognized
values are exactly `gpr_encoding`, `gpr_decoding`, `all`, with default
`all` when no value is supplied, and any other value is rejected at this
boundary before resolution. -/
def parse_modules : Option String → Except String String
  | none => Except.ok "all"
  | some v =>
      if v ∈ modulesChoices then Except.ok v
      else Except.error ("argument -m/--modules: invalid choice: " ++ v)

/-- The whole invocation: parse the module selection (or take the default),
then resolve it against the baseline descriptor.  On an invalid selection the
parse fails and no descriptor is produced. -/
def run_dng_sdk (arg : Option String) : Except String BuildDescriptor :=
  (parse_modules arg).map (fun m => resolve m dng_sdk_baseline)

/-- Number of entries of `defs` that carry the feature key `key`
(i.e. start with `key` followed by `=`). -/
def countWithKey (key : String) (defs : List String) : Nat :=
  (defs.filter (fun d => List.isPrefixOf (key ++ "=").data d.data)).length

/-- Unfolding of membership in the `--modules` choices list. -/
theorem mem_modulesChoices {s : String} (h : s ∈ modulesChoices) :
    s = "gpr_encoding" ∨ s = "gpr_decoding" ∨ s = "all" := by
  simpa [modulesChoices] using h

/-- C1: for every valid module selection, the resolver appends the define
`ENABLE_GPR_ENCODING` with value 1 if the selection is `gpr_encoding` or
`all`, and with value 0 otherwise; it lands right after the three baseline
defines. -/
theorem C1_encoding_define (s : String) (h : s ∈ modulesChoices) :
    (gyp_build_for s).defines[3]? =
      some (if s = "gpr_encoding" ∨ s = "all" then "ENABLE_GPR_ENCODING=1"
            else "ENABLE_GPR_ENCODING=0") := by
  rcases mem_modulesChoices h with rfl | rfl | rfl <;> rfl

/-- Witness for C1 at the concrete selections, with the branch evaluated. -/
theorem C1_encoding_define_witness :
    "gpr_encoding" ∈ modulesChoices ∧
    (gyp_build_for "gpr_encoding").defines[3]? = some "ENABLE_GPR_ENCODING=1" :=
  ⟨by decide, by simpa using C1_encoding_define "gpr_encoding" (by decide)⟩

/-- C2: for every valid module selection, the resolver appends the define
`ENABLE_GPR_DECODING` with value 1 if the selection is `gpr_decoding` or
`all`, and with value 0 otherwise; it is the fifth define, after the
encoding define. -/
theorem C2_decoding_define (s : String) (h : s ∈ modulesChoices) :
    (gyp_build_for s).defines[4]? =
      some (if s = "gpr_decoding" ∨ s = "all" then "ENABLE_GPR_DECODING=1"
            else "ENABLE_GPR_DECODING=0") := by
  rcases mem_modulesChoices h with rfl | rfl | rfl <;> rfl

/-- Witness for C2 at the concrete selections, with the branch evaluated. -/
theorem C2_decoding_define_witness :
    "gpr_decoding" ∈ modulesChoices ∧
    (gyp_build_for "gpr_decoding").defines[4]? = some "ENABLE_GPR_DECODING=1" :=
  ⟨by decide, by simpa using C2_decoding_define "gpr_decoding" (by decide)⟩

/-- C3: every input value outside `{gpr_encoding, gpr_decoding, all}` is
rejected at the input boundary: the invocation yields an error naming the
invalid choice and no descriptor (hence no partial define list) is
produced. -/
theorem C3_invalid_rejected (v : String) (h : v ∉ modulesChoices) :
    run_dng_sdk (some v) =
      Except.error ("argument -m/--modules: invalid choice: " ++ v) := by
  simp [run_dng_sdk, parse_modules, h, Except.map]

/-- Witness for C3 at the concrete invalid value `"gpr"`. -/
theorem C3_invalid_rejected_witness :
    "gpr" ∉ modulesChoices ∧
    run_dng_sdk (some "gpr") =
      Except.error ("argument -m/--modules: invalid choice: " ++ "gpr") :=
  ⟨by decide, C3_invalid_rejected "gpr" (by decide)⟩

/-- C4: for every valid module selection, the final defines list has length
baseline + 2, with the two feature defines appended last, encoding first,
then decoding. -/
theorem C4_defines_shape (s : String) (h : s ∈ modulesChoices) :
    (gyp_build_for s).defines.length = dng_sdk_baseline.defines.length + 2 ∧
    ∃ ev dv : String,
      (gyp_build_for s).defines =
        dng_sdk_baseline.defines ++
          ["ENABLE_GPR_ENCODING=" ++ ev, "ENABLE_GPR_DECODING=" ++ dv] := by
  rcases mem_modulesChoices h with rfl | rfl | rfl
  · exact ⟨rfl, "1", "0", by decide⟩
  · exact ⟨rfl, "0", "1", by decide⟩
  · exact ⟨rfl, "1", "1", by decide⟩

/-- Witness for C4 at the concrete selection `"all"`. -/
theorem C4_defines_shape_witness :
    "all" ∈ modulesChoices ∧
    ((gyp_build_for "all").defines.length = dng_sdk_baseline.defines.length + 2 ∧
     ∃ ev dv : String,
       (gyp_build_for "all").defines =
         dng_sdk_baseline.defines ++
           ["ENABLE_GPR_ENCODING=" ++ ev, "ENABLE_GPR_DECODING=" ++ dv]) :=
  ⟨by decide, C4_defines_shape "all" (by decide)⟩

/-- C5: resolution only touches the defines list: for every valid module
selection the sources list (and every other field) of the descriptor is
unchanged. -/
theorem C5_frame (s : String) (h : s ∈ modulesChoices) :
    (gyp_build_for s).sources = dng_sdk_baseline.sources ∧
    (gyp_build_for s).target_name = dng_sdk_baseline.target_name ∧
    (gyp_build_for s).target_type = dng_sdk_baseline.target_type ∧
    (gyp_build_for s).include_dirs = dng_sdk_baseline.include_dirs ∧
    (gyp_build_for s).includes = dng_sdk_baseline.includes := by
  rcases mem_modulesChoices h with rfl | rfl | rfl <;>
    exact ⟨rfl, rfl, rfl, rfl, rfl⟩

/-- Witness for C5 at the concrete selection `"gpr_decoding"`. -/
theorem C5_frame_witness :
    "gpr_decoding" ∈ modulesChoices ∧
    (gyp_build_for "gpr_decoding").sources = dng_sdk_baseline.sources :=
  ⟨by decide, (C5_frame "gpr_decoding" (by decide)).1⟩

/-- C6: after resolution the defines list carries exactly one entry for each
of the feature keys `ENABLE_GPR_ENCODING` and `ENABLE_GPR_DECODING`, for
every valid module selection. -/
theorem C6_one_entry_per_feature (s : String) (h : s ∈ modulesChoices) :
    countWithKey "ENABLE_GPR_ENCODING" (gyp_build_for s).defines = 1 ∧
    countWithKey "ENABLE_GPR_DECODING" (gyp_build_for s).defines = 1 := by
  rcases mem_modulesChoices h with rfl | rfl | rfl <;> exact ⟨by decide, by decide⟩

/-- Witness for C6 at the concrete selection `"all"`. -/
theorem C6_one_entry_per_feature_witness :
    "all" ∈ modulesChoices ∧
    countWithKey "ENABLE_GPR_ENCODING" (gyp_build_for "all").defines = 1 :=
  ⟨by decide, (C6_one_entry_per_feature "all" (by decide)).1⟩

/-- C7: the resolved descriptor is a function of the module selection alone:
two resolutions of equal selections yield identical descriptors (the
embedding takes no other input, so no hidden state can affect the result). -/
theorem C7_deterministic (s t : String) (hs : s ∈ modulesChoices) (hst : s = t) :
    gyp_build_for s = gyp_build_for t := by
  rw [hst]

/-- Witness for C7 at the concrete selection `"all"`. -/
theorem C7_deterministic_witness :
    "all" ∈ modulesChoices ∧ gyp_build_for "all" = gyp_build_for "all" :=
  ⟨by decide, C7_deterministic "all" "all" (by decide) rfl⟩

/-- C8: when no module selection is supplied the parser defaults to `all`,
and resolving `all` appends both `ENABLE_GPR_ENCODING=1` and
`ENABLE_GPR_DECODING=1`. -/
theorem C8_default_all :
    parse_modules none = Except.ok "all" ∧
    run_dng_sdk none = Except.ok (gyp_build_for "all") ∧
    (gyp_build_for "all").defines =
      dng_sdk_baseline.defines ++ ["ENABLE_GPR_ENCODING=1", "ENABLE_GPR_DECODING=1"] :=
  ⟨rfl, rfl, rfl⟩

/-- C9: no valid module selection yields the both-disabled pair: the defines
never contain both `ENABLE_GPR_ENCODING=0` and `ENABLE_GPR_DECODING=0`. -/
theorem C9_never_both_disabled (s : String) (h : s ∈ modulesChoices) :
    ¬("ENABLE_GPR_ENCODING=0" ∈ (gyp_build_for s).defines ∧
      "ENABLE_GPR_DECODING=0" ∈ (gyp_build_for s).defines) := by
  rcases mem_modulesChoices h with rfl | rfl | rfl <;> decide

/-- Witness for C9 at the concrete selection `"gpr_encoding"`. -/
theorem C9_never_both_disabled_witness :
    "gpr_encoding" ∈ modulesChoices ∧
    ¬("ENABLE_GPR_ENCODING=0" ∈ (gyp_build_for "gpr_encoding").defines ∧
      "ENABLE_GPR_DECODING=0" ∈ (gyp_build_for "gpr_encoding").defines) :=
  ⟨by decide, C9_never_both_disabled "gpr_encoding" (by decide)⟩

set_option maxRecDepth 4000 in
/-- C10 counterexample: the catalog's sources list has 140 entries, not the
141 the claim states. -/
theorem C10_sources_count :
    dng_sdk_baseline.sources.length = 140 ∧ dng_sdk_baseline.sources.length ≠ 141 := by
  exact ⟨by decide, by decide⟩

set_option maxRecDepth 4000 in
/-- C10 (amended to 140 source entries): for every valid module selection,
the descriptor has target name `dng_sdk`, type `static_library`, a non-empty
sources list of 140 entries beginning with `./dng_validate.cpp`, and the
three baseline defines, in order, at the front of the final defines list. -/
theorem C10_descriptor_identity (s : String) (h : s ∈ modulesChoices) :
    (gyp_build_for s).target_name = "dng_sdk" ∧
    (gyp_build_for s).target_type = "static_library" ∧
    (gyp_build_for s).sources ≠ [] ∧
    (gyp_build_for s).sources.length = 140 ∧
    (gyp_build_for s).sources.head? = some "./dng_validate.cpp" ∧
    (gyp_build_for s).defines.take 3 =
      ["<@(default_defines)", "qDNGXMPFiles=0", "qDNGXMPDocOps=0"] := by
  rcases mem_modulesChoices h with rfl | rfl | rfl <;>
    exact ⟨rfl, rfl, by decide, by decide, rfl, rfl⟩

set_option maxRecDepth 4000 in
/-- Witness for C10 at the concrete selection `"all"`. -/
theorem C10_descriptor_identity_witness :
    "all" ∈ modulesChoices ∧
    (gyp_build_for "all").target_name = "dng_sdk" ∧
    (gyp_build_for "all").sources.length = 140 :=
  ⟨by decide, (C10_descriptor_identity "all" (by decide)).1,
    (C10_descriptor_identity "all" (by decide)).2.2.2.1⟩
